import Mathlib

/-!
Verification of the review-scoring and aggregation core of the aimdb
repository (src/rating_system.py, src/expert_review.py), shallowly
embedded in Lean 4.  Python floats are modelled as rationals (ℚ); all
decimal constants appearing in the source are exactly representable at
the comparisons performed, so the embedding is faithful on the inputs
considered.  Logging and terminal-colouring side effects are ignored:
colour escape codes around tier labels are dropped, keeping the label
text itself.
-/

set_option allowUnsafeReducibility true
attribute [local semireducible] Rat.mul Rat.inv Rat.add Rat.sub Rat.div

namespace MovieRatingSystem

/-- Embedding of `MovieRatingSystem.TIERS` (src/rating_system.py lines 49-63):
an insertion-ordered table of inclusive integer score ranges with labels. -/
def TIERS : List ((ℤ × ℤ) × String) :=
  [((95, 100), "Timeless Masterpiece"),
   ((90, 94), "Exceptional"),
   ((85, 89), "Outstanding"),
   ((80, 84), "Excellent"),
   ((75, 79), "Very Good"),
   ((70, 74), "Good"),
   ((65, 69), "Above Average"),
   ((60, 64), "Average"),
   ((55, 59), "Below Average"),
   ((50, 54), "Mediocre"),
   ((40, 49), "Poor"),
   ((30, 39), "Very Poor"),
   ((0, 29), "Critically Flawed")]

/-- Embedding of `MovieRatingSystem.get_tier` (src/rating_system.py lines 65-70):
return the label of the first table entry whose inclusive range contains the
score, and the default label otherwise. -/
def get_tier (score : ℚ) : String :=
  match TIERS.find? (fun e => decide ((e.1.1 : ℚ) ≤ score ∧ score ≤ (e.1.2 : ℚ))) with
  | some e => e.2
  | none => "Unrated"

end MovieRatingSystem

/-- Embedding of `get_rating_tier` (src/rating_system.py lines 344-359); the
colorama colour wrappers around each label are terminal styling and are
dropped, keeping the label text. -/
def get_rating_tier (percentage : ℚ) : String :=
  if percentage ≥ 9/10 then "Masterpiece"
  else if percentage ≥ 8/10 then "Excellent"
  else if percentage ≥ 7/10 then "Very Good"
  else if percentage ≥ 6/10 then "Good"
  else if percentage ≥ 5/10 then "Average"
  else if percentage ≥ 4/10 then "Below Average"
  else "Poor"

/-- Embedding of the score aggregation performed by `format_review_output`
(src/rating_system.py lines 205-211): average the two category scores and
rescale from the 30-point to the 100-point scale. -/
def totalScore100 (visual_score screenplay_score : ℚ) : ℚ :=
  ((visual_score + screenplay_score) / 2) / 30 * 100

/-- Embedding of the confidence interval of `format_review_output`
(src/rating_system.py line 214): a simple symmetric ±3 band. -/
def confidence_range (total_score_100 : ℚ) : ℚ × ℚ :=
  (total_score_100 - 3, total_score_100 + 3)

/-- Python whitespace class matched by the regex escape for blanks
(ASCII subset, as used by the source's patterns). -/
def isPySpace (c : Char) : Bool :=
  c = ' ' || c = '\t' || c = '\n' || c = '\r' || c = '\x0b' || c = '\x0c'

/-- Numeric value of a run of decimal digit characters. -/
def digitsVal (ds : List Char) : ℕ :=
  ds.foldl (fun a c => 10 * a + (c.toNat - 48)) 0

/-- Value of a decimal literal with integer digits `ds` and fractional
digits `fs` (matching the capture group of the source's number pattern):
the exact rational value of the decimal numeral, as Python's float
conversion denotes it. -/
def decVal (ds fs : List Char) : ℚ :=
  mkRat (digitsVal ds * 10 ^ fs.length + digitsVal fs) (10 ^ fs.length)

/-- Whether the text starts with the literal denominator suffix of the
source's score patterns. -/
def startsWithSlash30 : List Char → Bool
  | '/' :: '3' :: '0' :: _ => true
  | _ => false

/-- Match of the number-slash-thirty regex tail at a fixed position.  The
greedy digit groups must consume maximal digit runs (a shorter run would be
followed by another digit, which can continue neither the literal dot nor
the slash), so backtracking collapses to this single deterministic case
split, exactly as the Python regex engine behaves on this pattern. -/
def matchNumSlash30 (cs : List Char) : Option ℚ :=
  let ds := cs.takeWhile Char.isDigit
  let rest := cs.dropWhile Char.isDigit
  if ds.isEmpty then none
  else
    match rest with
    | '.' :: rest2 =>
      let fs := rest2.takeWhile Char.isDigit
      let rest3 := rest2.dropWhile Char.isDigit
      if !fs.isEmpty && startsWithSlash30 rest3 then some (decVal ds fs) else none
    | _ => if startsWithSlash30 rest then some (decVal ds []) else none

/-- Leftmost search for a bare number-slash-thirty occurrence, the source's
second pattern stage (src/rating_system.py lines 399-404). -/
def searchNumSlash30 : List Char → Option ℚ
  | [] => none
  | c :: cs =>
    match matchNumSlash30 (c :: cs) with
    | some q => some q
    | none => searchNumSlash30 cs

/-- Case-insensitive literal match: on success return the remaining text. -/
def ciStartsWith : List Char → List Char → Option (List Char)
  | [], cs => some cs
  | _ :: _, [] => none
  | p :: ps, c :: cs => if c.toLower = p.toLower then ciStartsWith ps cs else none

/-- Match of the explicit first-stage score pattern at a fixed position: the
case-insensitive score keyword, greedy whitespace, then the number and the
literal denominator (src/rating_system.py line 393). -/
def matchScoreAt (cs : List Char) : Option ℚ :=
  match ciStartsWith "score:".data cs with
  | none => none
  | some rest => matchNumSlash30 (rest.dropWhile isPySpace)

/-- Leftmost search for the explicit first-stage score pattern. -/
def searchScorePattern : List Char → Option ℚ
  | [] => none
  | c :: cs =>
    match matchScoreAt (c :: cs) with
    | some q => some q
    | none => searchScorePattern cs

/-- All numeric tokens of the text in order, left to right and
non-overlapping with greedy matching, as the source's third stage collects
them on the first line (src/rating_system.py lines 407-409).  The fuel
argument bounds the recursion; every step consumes at least one character,
so fuel equal to the length is always sufficient. -/
def findNumbersAux : ℕ → List Char → List ℚ
  | 0, _ => []
  | _ + 1, [] => []
  | fuel + 1, c :: cs =>
    if c.isDigit then
      let ds := (c :: cs).takeWhile Char.isDigit
      let rest := (c :: cs).dropWhile Char.isDigit
      match rest with
      | '.' :: rest2 =>
        let fs := rest2.takeWhile Char.isDigit
        if fs.isEmpty then decVal ds [] :: findNumbersAux fuel rest
        else decVal ds fs :: findNumbersAux fuel (rest2.dropWhile Char.isDigit)
      | _ => decVal ds [] :: findNumbersAux fuel rest
    else findNumbersAux fuel cs

/-- All numeric tokens of the text, in order. -/
def findNumbers (cs : List Char) : List ℚ := findNumbersAux cs.length cs

/-- The text up to the first line break, as selected by the source's
split on newline taking the head. -/
def firstLine (s : String) : String := String.mk (s.data.takeWhile (fun c => c ≠ '\n'))

/-- Python builtin max of two values: the second argument wins only when
strictly greater, matching the builtin's tie behaviour. -/
def pymax (a b : ℚ) : ℚ := if b > a then b else a

/-- Python builtin min of two values: the second argument wins only when
strictly smaller, matching the builtin's tie behaviour. -/
def pymin (a b : ℚ) : ℚ := if b < a then b else a

/-- Embedding of `ExpertReviewSystem._parse_score` (src/rating_system.py
lines 389-422): explicit score-keyword pattern first, then a bare
number-slash-thirty occurrence, then the first in-range numeric token of
the first line, and finally the fixed 50% fallback.  Every operation in
the Python body is total on these inputs, so the surrounding
exception handler is unreachable and the embedding is a plain function. -/
def _parse_score (response : String) (max_points : ℚ) : ℚ :=
  match searchScorePattern response.data with
  | some score => pymin (pymax 0 score) max_points
  | none =>
    match searchNumSlash30 response.data with
    | some score => pymin (pymax 0 score) max_points
    | none =>
      match (findNumbers (firstLine response).data).find?
          (fun q => decide (0 ≤ q) && decide (q ≤ max_points)) with
      | some score => score
      | none => max_points * (1/2)

/-- Drop a literal separator from the front of the text, returning the
remainder on success. -/
def dropSep : List Char → List Char → Option (List Char)
  | [], cs => some cs
  | _ :: _, [] => none
  | p :: ps, c :: cs => if c = p then dropSep ps cs else none

/-- Whether the text starts with the given literal. -/
def startsWithList (p cs : List Char) : Bool := (dropSep p cs).isSome

/-- Whether the text ends with the given literal. -/
def endsWithList (p cs : List Char) : Bool := startsWithList p.reverse cs.reverse

/-- Split on a nonempty literal separator, leftmost first and
non-overlapping, keeping empty pieces: the behaviour of Python's string
split with a separator argument.  Fuel bounds the recursion; each step
consumes at least one character, so fuel equal to the length suffices. -/
def splitSepAux (sep : List Char) : ℕ → List Char → List Char → List (List Char)
  | _, acc, [] => [acc.reverse]
  | 0, acc, cs => [acc.reverse ++ cs]
  | fuel + 1, acc, c :: cs =>
    match dropSep sep (c :: cs) with
    | some rest => acc.reverse :: splitSepAux sep fuel [] rest
    | none => splitSepAux sep fuel (c :: acc) cs

/-- Python string split with a literal separator argument. -/
def pySplitSep (sep : String) (s : String) : List String :=
  (splitSepAux sep.data s.data.length [] s.data).map String.mk

/-- Cut the text at every single whitespace character, keeping empty pieces. -/
def splitWsAux : List Char → List Char → List (List Char)
  | acc, [] => [acc.reverse]
  | acc, c :: cs =>
    if isPySpace c then acc.reverse :: splitWsAux [] cs else splitWsAux (c :: acc) cs

/-- Python argumentless string split: split on whitespace runs, dropping
empty pieces. -/
def pySplitWhitespace (s : String) : List String :=
  ((splitWsAux [] s.data).filter (fun w => !w.isEmpty)).map String.mk

/-- Python string strip of leading and trailing characters satisfying p. -/
def pyStripChars (p : Char → Bool) (s : String) : String :=
  String.mk (((s.data.dropWhile p).reverse.dropWhile p).reverse)

/-- Python argumentless strip: remove leading and trailing whitespace. -/
def pyStrip (s : String) : String := pyStripChars isPySpace s

/-- The single-quote character, written by code point to keep the source
text plain. -/
def singleQuote : Char := Char.ofNat 39

/-- Embedding of the dataclass `CategoryScore` (src/rating_system.py
lines 18-21). -/
structure CategoryScore where
  score : ℚ
  justification : String
deriving DecidableEq

/-- Embedding of the analysis dictionary produced by
`TextAnalyzer.analyze_text` (src/rating_system.py lines 100-106); the
nested dialogue-markers dictionary is flattened to its two fields, which
is exactly the information it carries. -/
structure TextAnalysis where
  wordCount : ℕ
  sentenceCount : ℕ
  avgSentenceLength : ℚ
  dialogueSentences : ℕ
  dialogueRatio : ℚ
deriving DecidableEq

namespace TextAnalyzer

/-- Embedding of `TextAnalyzer._get_empty_analysis` (src/rating_system.py
lines 129-137): the all-zero analysis. -/
def _get_empty_analysis : TextAnalysis :=
  { wordCount := 0, sentenceCount := 0, avgSentenceLength := 0,
    dialogueSentences := 0, dialogueRatio := 0 }

/-- Embedding of `TextAnalyzer.analyze_text` together with its helper
`_analyze_dialogue_markers` (src/rating_system.py lines 84-127).  The
transcription argument is `none` when the Python value is falsy or has no
text key, and `some text` otherwise.  Sentences come from the naive
literal split on period-blank, words from the whitespace split; a sentence
counts as dialogue when it contains a double or single quote.  The helper
body is exception-free, so its handler is unreachable. -/
def analyze_text (transcription : Option String) : TextAnalysis :=
  match transcription with
  | none => _get_empty_analysis
  | some text =>
    let sentences := pySplitSep ". " text
    let words := pySplitWhitespace text
    let dialogueCount :=
      (sentences.filter (fun s => s.data.contains '"' || s.data.contains singleQuote)).length
    { wordCount := words.length
      sentenceCount := sentences.length
      avgSentenceLength :=
        if sentences.isEmpty then 0 else (words.length : ℚ) / (sentences.length : ℚ)
      dialogueSentences := dialogueCount
      dialogueRatio :=
        if sentences.isEmpty then 0 else (dialogueCount : ℚ) / (sentences.length : ℚ) }

end TextAnalyzer

/-- Embedding of `ExpertReviewSystem.analyze_screenplay` (src/rating_system.py
lines 459-475).  The language-model collaborator call is modelled by its
outcome `llmResult`: a response text on success, or an error value when the
call raises.  A falsy transcription short-circuits before the call; any
collaborator exception is caught and converted to the fixed fallback
`CategoryScore`, half of the 30-point category maximum, so nothing
propagates to the caller. -/
def analyze_screenplay (transcription : Option String) (llmResult : Except String String) :
    CategoryScore :=
  match transcription with
  | none => { score := 0, justification := "No transcription available" }
  | some _ =>
    match llmResult with
    | Except.error _ => { score := 15, justification := "Screenplay analysis failed" }
    | Except.ok response => { score := _parse_score response 30, justification := response }

/-- Truthiness of the review component returned by
`ExpertPanel.generate_review` (src/expert_review.py lines 17-29): `none`
models the error-fallback review and `some s` a generated review text,
falsy exactly when absent or empty. -/
def reviewTruthy : Option String → Bool
  | none => false
  | some s => !s.data.isEmpty

/-- Embedding of `run_expert_panel` (src/expert_review.py lines 31-45).
Each list entry carries an expert's name together with the outcome of
`generate_review` for that expert: the review (or `none` for the error
fallback) and the score.  An entry enters the reviews list and the score
average exactly when both review and score are truthy; the final score is
the mean of the collected scores, or zero when none were collected. -/
def run_expert_panel (results : List (String × Option String × ℚ)) :
    List (String × String × ℚ) × ℚ :=
  let included := results.filter (fun r => reviewTruthy r.2.1 && decide (r.2.2 ≠ 0))
  let reviews := included.map (fun r => (r.1, (r.2.1).getD "", r.2.2))
  let scores := included.map (fun r => r.2.2)
  (reviews, if scores.isEmpty then 0 else scores.sum / (scores.length : ℚ))

/-- Insert or overwrite a key in an association list, preserving insertion
order: the behaviour of assignment into a Python dict. -/
def dictInsert (m : List (String × String)) (k v : String) : List (String × String) :=
  if m.any (fun p => p.1 = k) then m.map (fun p => if p.1 = k then (k, v) else p)
  else m ++ [(k, v)]

/-- One line of `parse_review_sections` (src/rating_system.py lines 581-593)
applied to the running state of accumulated sections, the open section name,
and its accumulated lines. -/
def reviewSectionStep (st : List (String × String) × Option String × List String)
    (line : String) : List (String × String) × Option String × List String :=
  let l := pyStrip line
  if l.data.isEmpty then st
  else if startsWithList "**".data l.data && endsWithList ":**".data l.data then
    let m := match st.2.1 with
      | some sec => dictInsert st.1 sec (String.intercalate "\n" st.2.2)
      | none => st.1
    (m, some (pyStripChars (fun c => c = '*' || c = ':') l), [])
  else (st.1, st.2.1, st.2.2 ++ [l])

/-- Embedding of `parse_review_sections` (src/rating_system.py lines
575-598): scan lines, open a section at each starred header, accumulate
non-header lines into the open section, and flush at the end.  The result
dictionary is modelled as an insertion-ordered association list. -/
def parse_review_sections (review_text : String) : List (String × String) :=
  let st := (pySplitSep "\n" review_text).foldl reviewSectionStep ([], none, [])
  match st.2.1 with
  | some sec => dictInsert st.1 sec (String.intercalate "\n" st.2.2)
  | none => st.1

/-- The text after the first period, or the whole text when there is no
period: Python's split on a period with one maximal split, taking the last
piece. -/
def afterFirstDot : List Char → Option (List Char)
  | [] => none
  | '.' :: rest => some rest
  | _ :: rest => afterFirstDot rest

/-- Content of a freshly opened bullet point (src/rating_system.py
line 614). -/
def bulletContent (l : String) : String :=
  match afterFirstDot l.data with
  | some rest => pyStrip (String.mk rest)
  | none => pyStrip l

/-- The bullet-marker test of `parse_bullet_points` (src/rating_system.py
line 611), with Python's evaluation order: when the first character is a
digit the test reads the second character, raising an index error on a
one-character line — modelled by the error case. -/
def bulletMarker (l : String) : Except String Bool :=
  match l.data with
  | [] => Except.error "string index out of range"
  | c :: rest =>
    if c.isDigit then
      match rest with
      | [] => Except.error "string index out of range"
      | d :: _ => pure (decide (d = '.') || startsWithList "•".data l.data)
    else pure (startsWithList "•".data l.data)

/-- One line of `parse_bullet_points` applied to the running state of
finished points and the currently open point. -/
def bulletStep (st : List String × List String) (line : String) :
    Except String (List String × List String) :=
  let l := pyStrip line
  if l.data.isEmpty then pure st
  else do
    let isMarker ← bulletMarker l
    if isMarker then
      let pts := if st.2.isEmpty then st.1 else st.1 ++ [String.intercalate " " st.2]
      pure (pts, [bulletContent l])
    else pure (st.1, st.2 ++ [l])

/-- Embedding of `parse_bullet_points` (src/rating_system.py lines 600-621).
The result is an error exactly when the Python function raises. -/
def parse_bullet_points (text : String) : Except String (List String) := do
  let st ← (pySplitSep "\n" text).foldlM bulletStep ([], [])
  pure (if st.2.isEmpty then st.1 else st.1 ++ [String.intercalate " " st.2])

/-- Clamping with the Python min and max builtins keeps a value inside
a nonnegative ceiling. -/
lemma pyclamp_bounds (q m : ℚ) (hm : 0 ≤ m) :
    0 ≤ pymin (pymax 0 q) m ∧ pymin (pymax 0 q) m ≤ m := by
  unfold pymin pymax
  split_ifs <;> constructor <;> linarith

/-- A leftmost search skips a prefix none of whose positions start a match
of the explicit score pattern. -/
lemma searchScorePattern_append (pre rest : List Char)
    (h : ∀ i < pre.length, matchScoreAt ((pre ++ rest).drop i) = none) :
    searchScorePattern (pre ++ rest) = searchScorePattern rest := by
  induction pre with
  | nil => simp
  | cons c pre ih =>
    have h0 : matchScoreAt (c :: (pre ++ rest)) = none := by
      simpa using h 0 (Nat.succ_pos _)
    have hrec : ∀ i < pre.length, matchScoreAt ((pre ++ rest).drop i) = none := by
      intro i hi
      simpa using h (i + 1) (by simpa using Nat.succ_lt_succ hi)
    rw [List.cons_append, searchScorePattern, h0]
    exact ih hrec

/-- Scores of the entries kept by the panel filter are exactly the nonzero
scores, provided every entry with a nonzero score carries a truthy review. -/
lemma included_scores (results : List (String × Option String × ℚ))
    (h : ∀ r ∈ results, r.2.2 ≠ 0 → reviewTruthy r.2.1 = true) :
    (results.filter (fun r => reviewTruthy r.2.1 && decide (r.2.2 ≠ 0))).map
        (fun r => r.2.2)
      = (results.map (fun r => r.2.2)).filter (fun s => decide (s ≠ 0)) := by
  induction results with
  | nil => rfl
  | cons r rs ih =>
    have hr := h r (List.mem_cons_self r rs)
    have hrs : ∀ x ∈ rs, x.2.2 ≠ 0 → reviewTruthy x.2.1 = true :=
      fun x hx => h x (List.mem_cons_of_mem r hx)
    by_cases hz : r.2.2 = 0
    · have hb2 : (decide (r.2.2 ≠ 0) : Bool) = false := by simp [hz]
      simp only [List.filter_cons, List.map_cons, hb2, Bool.and_false, Bool.false_eq_true,
        if_false]
      exact ih hrs
    · have hb2 : (decide (r.2.2 ≠ 0) : Bool) = true := by simp [hz]
      simp only [List.filter_cons, List.map_cons, hb2, Bool.and_true, hr hz, if_true]
      rw [ih hrs]

/-- C1 (counterexample): the claim asserts the tier table has no gap on
the real interval and in particular that a score of 94.999 maps to
"Exceptional"; on the code, 94.999 falls in the gap between the bracket
ending at 94 and the bracket starting at 95, so `get_tier` returns the
default label instead. -/
theorem get_tier_gap_counterexample :
    MovieRatingSystem.get_tier (mkRat 94999 1000) = "Unrated"
      ∧ MovieRatingSystem.get_tier (mkRat 94999 1000) ≠ "Exceptional" := by
  constructor <;> decide

/-- C1 (amended): the tier table partitions the integer scores 0..100
exhaustively and without overlap (each such score lies in exactly one
bracket); `get_tier 95` is "Timeless Masterpiece"; fractional scores
strictly between consecutive brackets, such as 94.999, fall in a gap; and
every score contained in no bracket maps to the default label
"Unrated". -/
theorem tiers_partition :
    (∀ n : ℕ, n ≤ 100 →
      (MovieRatingSystem.TIERS.filter
        (fun e => decide (e.1.1 ≤ (n : ℤ) ∧ (n : ℤ) ≤ e.1.2))).length = 1)
    ∧ MovieRatingSystem.get_tier 95 = "Timeless Masterpiece"
    ∧ MovieRatingSystem.get_tier (mkRat 94999 1000) = "Unrated"
    ∧ ∀ q : ℚ, (∀ e ∈ MovieRatingSystem.TIERS, ¬((e.1.1 : ℚ) ≤ q ∧ q ≤ (e.1.2 : ℚ))) →
        MovieRatingSystem.get_tier q = "Unrated" := by
  refine ⟨by decide, by decide, by decide, ?_⟩
  intro q h
  unfold MovieRatingSystem.get_tier
  rw [List.find?_eq_none.mpr]
  intro e he
  simpa using h e he

/-- C1 (witness for the amended theorem): the bracket count at the integer
score 50 and the default label at the out-of-table score 200. -/
theorem tiers_partition_witness :
    (MovieRatingSystem.TIERS.filter
      (fun e => decide (e.1.1 ≤ ((50 : ℕ) : ℤ) ∧ ((50 : ℕ) : ℤ) ≤ e.1.2))).length = 1
    ∧ MovieRatingSystem.get_tier 200 = "Unrated" :=
  ⟨tiers_partition.1 50 (by norm_num), tiers_partition.2.2.2 200 (by decide)⟩

/-- C2: the score extractor is a total function whose result always lies
between zero and the positive category maximum, whatever the response
text. -/
theorem parse_score_bounds (response : String) (max_points : ℚ) (h : 0 < max_points) :
    0 ≤ _parse_score response max_points ∧ _parse_score response max_points ≤ max_points := by
  unfold _parse_score
  cases h1 : searchScorePattern response.data with
  | some q => exact pyclamp_bounds q max_points h.le
  | none =>
    cases h2 : searchNumSlash30 response.data with
    | some q => exact pyclamp_bounds q max_points h.le
    | none =>
      cases h3 : (findNumbers (firstLine response).data).find?
          (fun q => decide (0 ≤ q) && decide (q ≤ max_points)) with
      | some q =>
        have hq := List.find?_some h3
        simp only [Bool.and_eq_true, decide_eq_true_eq] at hq
        exact hq
      | none => constructor <;> linarith

/-- C2 (witness): bounds at a concrete response and maximum. -/
theorem parse_score_bounds_witness :
    (0 : ℚ) < 30 ∧ (0 ≤ _parse_score "stellar work" 30 ∧ _parse_score "stellar work" 30 ≤ 30) :=
  ⟨by norm_num, parse_score_bounds "stellar work" 30 (by norm_num)⟩

/-- C3: first match wins across the pattern stages.  In any text carrying
an explicit score-keyword occurrence capturing 22, with no earlier position
matching the explicit stage-one pattern, the extractor returns 22 at
maximum 30 — regardless of any unrelated bare fraction such as a 15/30
elsewhere in the text, whose presence the second hypothesis records. -/
theorem parse_score_priority (pre suf : List Char)
    (hpre : ∀ i < pre.length,
      matchScoreAt ((pre ++ "Score: 22/30".data ++ suf).drop i) = none)
    (_hbare : ∃ j, ((pre ++ "Score: 22/30".data ++ suf).drop j).take 5 = "15/30".data) :
    _parse_score (String.mk (pre ++ "Score: 22/30".data ++ suf)) 30 = 22 := by
  have hdata : (String.mk (pre ++ "Score: 22/30".data ++ suf)).data
      = pre ++ ("Score: 22/30".data ++ suf) := by
    simp [List.append_assoc]
  have hpre' : ∀ i < pre.length,
      matchScoreAt ((pre ++ ("Score: 22/30".data ++ suf)).drop i) = none := by
    intro i hi
    have := hpre i hi
    rwa [List.append_assoc] at this
  have hstage1 : searchScorePattern (pre ++ ("Score: 22/30".data ++ suf))
      = some (decVal ['2', '2'] []) := by
    rw [searchScorePattern_append pre _ hpre']
    rfl
  unfold _parse_score
  rw [hdata, hstage1]
  exact (by decide : pymin (pymax 0 (decVal ['2', '2'] [])) 30 = 22)

/-- C3 (witness): a concrete text holding an unrelated bare 15/30 before
the explicit score, parsed to 22. -/
theorem parse_score_priority_witness :
    (∀ i < ("An aside 15/30 here. ".data).length,
      matchScoreAt ((("An aside 15/30 here. ".data) ++ "Score: 22/30".data
        ++ " The end.".data).drop i) = none)
    ∧ _parse_score (String.mk (("An aside 15/30 here. ".data) ++ "Score: 22/30".data
        ++ " The end.".data)) 30 = 22 :=
  ⟨by decide, parse_score_priority "An aside 15/30 here. ".data " The end.".data
    (by decide) ⟨9, by decide⟩⟩

/-- C4: when no stage matches — no explicit score-keyword pattern, no bare
fraction, and no first-line numeric token inside the zero-to-thirty
range — the extractor returns exactly 15, half of the 30-point maximum. -/
theorem parse_score_fallback (t : String)
    (h1 : searchScorePattern t.data = none)
    (h2 : searchNumSlash30 t.data = none)
    (h3 : (findNumbers (firstLine t).data).find?
      (fun q => decide (0 ≤ q) && decide (q ≤ (30 : ℚ))) = none) :
    _parse_score t 30 = 15 := by
  unfold _parse_score
  rw [h1, h2, h3]
  norm_num

/-- C4 (witness): the neutral fallback on a concrete response with no
parseable number. -/
theorem parse_score_fallback_witness :
    searchScorePattern "The acting felt flat and lifeless throughout.".data = none
    ∧ searchNumSlash30 "The acting felt flat and lifeless throughout.".data = none
    ∧ (findNumbers (firstLine "The acting felt flat and lifeless throughout.").data).find?
        (fun q => decide (0 ≤ q) && decide (q ≤ (30 : ℚ))) = none
    ∧ _parse_score "The acting felt flat and lifeless throughout." 30 = 15 :=
  ⟨by decide, by decide, by decide,
   parse_score_fallback "The acting felt flat and lifeless throughout."
     (by decide) (by decide) (by decide)⟩

/-- C5: when the collaborator call raises, `analyze_screenplay` returns the
fixed fallback score of 15 (half of the 30-point maximum) with the fixed
failure justification, for every transcription text and every error; the
embedding is a total function, so nothing propagates to the caller. -/
theorem analyze_screenplay_fallback (t e : String) :
    analyze_screenplay (some t) (Except.error e)
      = { score := 15, justification := "Screenplay analysis failed" } := rfl

/-- C6: aggregating an empty collection of scores yields a zero total with
no division error: the expert panel over an empty result list returns no
reviews and a zero final score, the two-category aggregation of two zero
scores is zero, and both tier tables resolve zero to their lowest bucket. -/
theorem empty_aggregation :
    run_expert_panel [] = ([], 0)
    ∧ totalScore100 0 0 = 0
    ∧ MovieRatingSystem.get_tier 0 = "Critically Flawed"
    ∧ get_rating_tier (totalScore100 0 0 / 100) = "Poor" := by
  refine ⟨rfl, by decide, by decide, by decide⟩

/-- C7: for visual 25/30 and screenplay 20/30 the aggregation yields a
100-scale total of 75, the displayed tier "Very Good", and the ±3
confidence band from 72 to 78. -/
theorem two_category_aggregation :
    totalScore100 25 20 = 75
    ∧ get_rating_tier (totalScore100 25 20 / 100) = "Very Good"
    ∧ confidence_range (totalScore100 25 20) = (72, 78) := by
  refine ⟨by decide, by decide, by decide⟩

/-- C8 (counterexample): the claim asserts the empty transcript string is
returned as the all-zero analysis; on the code the naive period-blank split
of the empty string produces one empty sentence, so the sentence count is
one, not zero. -/
theorem analyze_text_empty_string_counterexample :
    TextAnalyzer.analyze_text (some "") ≠ TextAnalyzer._get_empty_analysis := by
  decide

/-- C8 (amended): an absent transcript returns the all-zero analysis, and
the empty transcript string returns zero words, zero dialogue and zero
ratios but a sentence count of one (the naive split yields one empty
sentence); neither case errors, both being plain values of the total
embedding. -/
theorem analyze_text_empty_cases :
    TextAnalyzer.analyze_text none = TextAnalyzer._get_empty_analysis
    ∧ TextAnalyzer.analyze_text (some "")
      = { wordCount := 0, sentenceCount := 1, avgSentenceLength := 0,
          dialogueSentences := 0, dialogueRatio := 0 } := by
  refine ⟨rfl, by decide⟩

/-- C9: the bullet-point parser is not total: on the single-character line
"5" the marker test reads the second character of a one-character string,
raising an index error, modelled by the error result — contradicting the
claim that the parsing helpers never raise. -/
theorem parse_bullet_points_index_error :
    parse_bullet_points "5" = Except.error "string index out of range" := rfl

/-- C10: an expert whose generation outcome has a falsy review or a zero
score is excluded from the returned reviews; and provided every nonzero
score comes with a truthy review (as the two return paths of the source
produce), the final score is the arithmetic mean of the strictly nonzero
scores, or zero when there are none. -/
theorem run_expert_panel_spec (results : List (String × Option String × ℚ))
    (h : ∀ r ∈ results, r.2.2 ≠ 0 → reviewTruthy r.2.1 = true) :
    (run_expert_panel results).1
      = (results.filter (fun r => reviewTruthy r.2.1 && decide (r.2.2 ≠ 0))).map
          (fun r => (r.1, (r.2.1).getD "", r.2.2))
    ∧ (run_expert_panel results).2
      = (if ((results.map (fun r => r.2.2)).filter (fun s => decide (s ≠ 0))).isEmpty then 0
         else ((results.map (fun r => r.2.2)).filter (fun s => decide (s ≠ 0))).sum /
           ((((results.map (fun r => r.2.2)).filter (fun s => decide (s ≠ 0))).length : ℕ) : ℚ)) := by
  constructor
  · rfl
  · show (if ((results.filter (fun r => reviewTruthy r.2.1 && decide (r.2.2 ≠ 0))).map
        (fun r => r.2.2)).isEmpty then (0 : ℚ)
      else ((results.filter (fun r => reviewTruthy r.2.1 && decide (r.2.2 ≠ 0))).map
        (fun r => r.2.2)).sum /
        ((((results.filter (fun r => reviewTruthy r.2.1 && decide (r.2.2 ≠ 0))).map
          (fun r => r.2.2)).length : ℕ) : ℚ)) = _
    rw [included_scores results h]

/-- C10 (witness): a concrete panel where one expert has the error
fallback, one a zero score with a truthy review, and two nonzero scores;
the reviews keep exactly the two nonzero-score experts and the final score
is their mean. -/
theorem run_expert_panel_spec_witness :
    (∀ r ∈ ([("A", some "good", 8), ("B", none, 0), ("C", some "ok", 4),
        ("D", some "bad", 0)] : List (String × Option String × ℚ)),
      r.2.2 ≠ 0 → reviewTruthy r.2.1 = true)
    ∧ (run_expert_panel [("A", some "good", 8), ("B", none, 0), ("C", some "ok", 4),
        ("D", some "bad", 0)]).1 = [("A", "good", 8), ("C", "ok", 4)]
    ∧ (run_expert_panel [("A", some "good", 8), ("B", none, 0), ("C", some "ok", 4),
        ("D", some "bad", 0)]).2 = 6 := by
  refine ⟨by decide, ?_, ?_⟩
  · rw [(run_expert_panel_spec [("A", some "good", 8), ("B", none, 0), ("C", some "ok", 4),
      ("D", some "bad", 0)] (by decide)).1]
    decide
  · rw [(run_expert_panel_spec [("A", some "good", 8), ("B", none, 0), ("C", some "ok", 4),
      ("D", some "bad", 0)] (by decide)).2]
    decide
